import Mathlib

/-!
# Verification of the multi-user WhatsApp session service (src/index.js)

Shallow embedding of the session-lifecycle manager: the per-user client
registry (`clients`), the transport event handlers registered in
`createClientInstance`, and the four HTTP handlers (`/start`, `/status`,
`/disconnect`, `/send`).

Modelling conventions:
- JavaScript strings are `String`; an absent/falsy request field is the
  empty string (the code only checks truthiness of `userId` / `number`).
- The global `clients` object is an association list `String × ClientEntry`;
  the `client` object held in each entry is represented by a numeric
  transport-handle id (`clientId`), allocated from a counter
  (`nextClientId`) each time `new Client(...)` runs.
- Side effects on external collaborators (allocating a client, calling
  `initialize`, `destroy`, `sendMessage`, deleting a session folder) are
  recorded in an `Effect` list returned by each handler.
- The `qr` event handler is split in two, mirroring the code: the
  synchronous part sets `status := QR_READY` and schedules
  `qrcode.toDataURL`; the asynchronous completion of that encoding is a
  separate `qrEncoded` event that writes `qrData` (to `none` on encoder
  error), exactly as the callback on lines 51-53 does.  The `.catch` of
  `client.initialize()` (line 121) is likewise the separate `initError`
  event.
-/

namespace QRService

/-- The status strings used by the code:
DISCONNECTED, STARTING, QR_READY, CONNECTED, AUTH_FAILED. -/
inductive Status where
  | DISCONNECTED
  | STARTING
  | QR_READY
  | CONNECTED
  | AUTH_FAILED
deriving DecidableEq, Repr

/-- Rendering of a status into the string interpolated into messages. -/
def Status.name : Status → String
  | .DISCONNECTED => "DISCONNECTED"
  | .STARTING => "STARTING"
  | .QR_READY => "QR_READY"
  | .CONNECTED => "CONNECTED"
  | .AUTH_FAILED => "AUTH_FAILED"

/-- The `client.info` object as used by `/status` (pushname, me.user). -/
structure ClientInfo where
  pushname : String
  user : String
deriving DecidableEq, Repr

/-- One value of the `clients[userId]` object: the client instance
(represented by its allocation id), `status`, `qrData`, `info`. -/
structure ClientEntry where
  clientId : Nat
  status : Status
  qrData : Option String
  info : Option ClientInfo
deriving DecidableEq, Repr

/-- The global `clients` table, keyed by userId. -/
abbrev Registry := List (String × ClientEntry)

/-- `clients[userId]` read. -/
def lookupClient : Registry → String → Option ClientEntry
  | [], _ => none
  | (k, v) :: rest, u => if u = k then some v else lookupClient rest u

/-- `clients[userId] = entry` write (replace or append). -/
def setClient : Registry → String → ClientEntry → Registry
  | [], u, e => [(u, e)]
  | (k, v) :: rest, u, e =>
      if u = k then (u, e) :: rest else (k, v) :: setClient rest u e

/-- Whole-server state: the `clients` table plus the allocation counter
that names successive `new Client(...)` instances. -/
structure ServerState where
  clients : Registry
  nextClientId : Nat
deriving DecidableEq, Repr

/-- The server state at process start: empty `clients` object. -/
def initState : ServerState := ⟨[], 0⟩

/-- Observable calls made to external collaborators. -/
inductive Effect where
  | newClient (userId : String) (clientId : Nat)
  | initCall (clientId : Nat)
  | destroyCall (clientId : Nat)
  | deleteSessionFolder (path : String)
  | transportSend (clientId : Nat) (chatId : String)
deriving DecidableEq, Repr

/-- `whatsapp_session_${userId}`, the per-identity credential store path. -/
def sessionPath (userId : String) : String := "whatsapp_session_" ++ userId

/-- `createClientInstance(userId)` (lines 16-82): returns the existing
client when an entry exists with status other than DISCONNECTED; otherwise
allocates a fresh client and (re)sets the entry to
`{status: DISCONNECTED, qrData: null, info: null}`.  Returns the new
state, the returned client's id, and the allocation effects. -/
def createClientInstance (s : ServerState) (userId : String) :
    ServerState × Nat × List Effect :=
  match lookupClient s.clients userId with
  | some entry =>
      if entry.status ≠ Status.DISCONNECTED then
        (s, entry.clientId, [])
      else
        (⟨setClient s.clients userId
            ⟨s.nextClientId, Status.DISCONNECTED, none, none⟩,
          s.nextClientId + 1⟩,
         s.nextClientId, [Effect.newClient userId s.nextClientId])
  | none =>
      (⟨setClient s.clients userId
          ⟨s.nextClientId, Status.DISCONNECTED, none, none⟩,
        s.nextClientId + 1⟩,
       s.nextClientId, [Effect.newClient userId s.nextClientId])

/-- Transport-side events delivered to the handlers registered in
`createClientInstance`, plus the two asynchronous callback completions. -/
inductive TransportEvent where
  | qr (raw : String)
  | qrEncoded (result : Option String)
  | ready (info : ClientInfo)
  | disconnected (reason : String)
  | authFailure (msg : String)
  | initError
deriving DecidableEq, Repr

/-- Dispatch of one transport event for one identity, exactly following the
handler bodies (lines 48-79 and the `.catch` on line 121).  The handlers
close over `clients[userId]`; entries are never deleted by the code, so the
entry is present whenever a handler fires (the `none` branch is inert). -/
def applyEvent (s : ServerState) (userId : String) (e : TransportEvent) :
    ServerState × List Effect :=
  match lookupClient s.clients userId with
  | none => (s, [])
  | some entry =>
    match e with
    | .qr _ =>
        (⟨setClient s.clients userId { entry with status := Status.QR_READY },
          s.nextClientId⟩, [])
    | .qrEncoded result =>
        (⟨setClient s.clients userId { entry with qrData := result },
          s.nextClientId⟩, [])
    | .ready i =>
        (⟨setClient s.clients userId
            { entry with status := Status.CONNECTED, info := some i,
                         qrData := none },
          s.nextClientId⟩, [])
    | .disconnected _ =>
        (⟨setClient s.clients userId
            { entry with status := Status.DISCONNECTED, info := none,
                         qrData := none },
          s.nextClientId⟩, [])
    | .authFailure _ =>
        (⟨setClient s.clients userId
            { entry with status := Status.AUTH_FAILED, qrData := none },
          s.nextClientId⟩,
         [Effect.deleteSessionFolder (sessionPath userId)])
    | .initError =>
        (⟨setClient s.clients userId
            { entry with status := Status.DISCONNECTED },
          s.nextClientId⟩, [])

/-- The object `getClientState(userId)` (lines 84-90) exposes: status,
qrData and info (the fallback object's fields read as DISCONNECTED / null /
null through the `/status` and `/send` accesses). -/
structure StateView where
  status : Status
  qrData : Option String
  info : Option ClientInfo
deriving DecidableEq, Repr

/-- `getClientState(userId)`: the registry entry, or the DISCONNECTED
fallback for an unknown identity. -/
def getClientState (s : ServerState) (userId : String) : StateView :=
  match lookupClient s.clients userId with
  | some entry => ⟨entry.status, entry.qrData, entry.info⟩
  | none => ⟨Status.DISCONNECTED, none, none⟩

/-- The JSON body of a `/start` response.  The source bodies carry only a
`message` and, on the 200 early-return, a `status` field; no response of
this endpoint ever carries a `qr`/pairing-artifact field, which the model
makes explicit with an always-`none` `qr` field. -/
structure StartResponse where
  code : Nat
  message : String
  status : Option Status
  qr : Option String
deriving DecidableEq, Repr

/-- `POST /start` (lines 104-129).  Guard on CONNECTED / QR_READY returns
200 with the current status; otherwise `createClientInstance`, set status
to STARTING, call `initialize()` asynchronously (recorded as an effect; the
response is produced without waiting for it) and answer 202. -/
def startHandler (s : ServerState) (userId : String) :
    ServerState × StartResponse × List Effect :=
  if userId = "" then
    (s, ⟨400, "Missing userId in request body.", none, none⟩, [])
  else
    let st := getClientState s userId
    if st.status = Status.CONNECTED ∨ st.status = Status.QR_READY then
      (s, ⟨200, "Session is already active or initializing.",
           some st.status, none⟩, [])
    else
      match createClientInstance s userId with
      | (s1, cid, effs) =>
        match lookupClient s1.clients userId with
        | some entry =>
            (⟨setClient s1.clients userId
                { entry with status := Status.STARTING }, s1.nextClientId⟩,
             ⟨202, "Initialization started. Poll /status for QR code.",
              none, none⟩,
             effs ++ [Effect.initCall cid])
        | none =>
            (s1,
             ⟨202, "Initialization started. Poll /status for QR code.",
              none, none⟩,
             effs ++ [Effect.initCall cid])

/-- The JSON body of a `/status` response (lines 131-145). -/
inductive StatusResponse where
  | missingUserId
  | ok (status : Status) (qr : Option String)
       (connection_info : Option ClientInfo)
deriving DecidableEq, Repr

/-- `GET /status`: a pure read of `getClientState`. -/
def statusHandler (s : ServerState) (userId : String) : StatusResponse :=
  if userId = "" then StatusResponse.missingUserId
  else
    let st := getClientState s userId
    StatusResponse.ok st.status st.qrData st.info

/-- The JSON body of a `/disconnect` response.  The source bodies carry a
`message` (plus an `error` on the 500 path) and never a `state` field; the
always-`none` `state` field makes that explicit. -/
structure DisconnectResponse where
  code : Nat
  message : String
  state : Option String
deriving DecidableEq, Repr

/-- `POST /disconnect` (lines 147-178).  `destroyOk` tells whether the
awaited `client.destroy()` resolves (true) or rejects (false), which the
code turns into the 500 path that only resets `status`. -/
def disconnectHandler (s : ServerState) (userId : String)
    (destroyOk : Bool) : ServerState × DisconnectResponse × List Effect :=
  if userId = "" then
    (s, ⟨400, "Missing userId in request body.", none⟩, [])
  else
    match lookupClient s.clients userId with
    | none =>
        (s, ⟨200, "Client already disconnected or not initialized.", none⟩,
         [])
    | some entry =>
        if entry.status = Status.DISCONNECTED then
          (s, ⟨200, "Client already disconnected or not initialized.",
               none⟩, [])
        else if destroyOk then
          (⟨setClient s.clients userId
              { entry with status := Status.DISCONNECTED, qrData := none,
                           info := none },
            s.nextClientId⟩,
           ⟨200, "Successfully destroyed session and disconnected.", none⟩,
           [Effect.destroyCall entry.clientId,
            Effect.deleteSessionFolder (sessionPath userId)])
        else
          (⟨setClient s.clients userId
              { entry with status := Status.DISCONNECTED },
            s.nextClientId⟩,
           ⟨500, "Error during disconnect.", none⟩,
           [Effect.destroyCall entry.clientId])

/-- One element of `media_attachments`: the fields the code inspects.
A `none` list element models a null/undefined array slot. -/
structure MediaFile where
  data : Option String
  mimetype : Option String
deriving DecidableEq, Repr

/-- A `POST /send` request body; absent string fields are `""`
(`message || ''` makes the two indistinguishable downstream). -/
structure SendRequest where
  userId : String
  number : String
  message : String
  media : List (Option MediaFile)
deriving DecidableEq, Repr

/-- The JSON body of a `/send` response. -/
structure SendResponse where
  code : Nat
  success : Bool
  message : String
deriving DecidableEq, Repr

/-- The 400 message of line 206, which interpolates the current status. -/
def sendErrMsg (userId : String) (st : Status) : String :=
  "WhatsApp client for user " ++ userId ++
    " connected nahi hai (Status: " ++ st.name ++ ")."

/-- Line 209: `${number.replace(/[^0-9]/g, '')}@c.us`. -/
def toChatId (number : String) : String :=
  String.mk (number.data.filter Char.isDigit) ++ "@c.us"

/-- A media array slot passes the line 221 check when it is non-null and
has both `data` and `mimetype`. -/
def validMedia : Option MediaFile → Bool
  | none => false
  | some f => f.data.isSome && f.mimetype.isSome

/-- `POST /send` (lines 180-260), with every underlying
`client.sendMessage` resolving (the claims under verification concern the
paths before and including the transport calls, not transport rejection). -/
def sendHandler (s : ServerState) (r : SendRequest) :
    SendResponse × List Effect :=
  if r.userId = "" ∨ r.number = "" then
    (⟨400, false, "userId aur Number dono zaroori hain."⟩, [])
  else
    let isMediaPresent := decide (r.media.length > 0)
    let finalMessage := r.message
    if isMediaPresent = false ∧ finalMessage.trim = "" then
      (⟨400, false,
        "userId, Number, and message are required. Message content ya kam se kam ek media file zaroori hai."⟩,
       [])
    else
      let clientState := getClientState s r.userId
      match lookupClient s.clients r.userId with
      | none =>
          (⟨400, false, sendErrMsg r.userId clientState.status⟩, [])
      | some entry =>
          if clientState.status ≠ Status.CONNECTED then
            (⟨400, false, sendErrMsg r.userId clientState.status⟩, [])
          else
            let chatId := toChatId r.number
            if isMediaPresent then
              let sent := r.media.filter validMedia
              if sent.length = 0 then
                (⟨500, false, "No media files could be sent successfully."⟩,
                 [])
              else
                (⟨200, true,
                  toString sent.length ++ " messages sent to " ++
                    r.number ++ "."⟩,
                 sent.map (fun _ => Effect.transportSend entry.clientId chatId))
            else
              (⟨200, true, "1 messages sent to " ++ r.number ++ "."⟩,
               [Effect.transportSend entry.clientId chatId])

/-- One atomic turn of the event loop: an HTTP handler body or a transport
event callback. -/
inductive Action where
  | httpStart (userId : String)
  | httpDisconnect (userId : String) (destroyOk : Bool)
  | httpSend (r : SendRequest)
  | transport (userId : String) (e : TransportEvent)
deriving DecidableEq, Repr

/-- Execute one action. -/
def step (s : ServerState) (a : Action) : ServerState × List Effect :=
  match a with
  | .httpStart u => match startHandler s u with
      | (s', _, effs) => (s', effs)
  | .httpDisconnect u ok => match disconnectHandler s u ok with
      | (s', _, effs) => (s', effs)
  | .httpSend r => match sendHandler s r with
      | (_, effs) => (s, effs)
  | .transport u e => applyEvent s u e

/-- Execute a list of actions, accumulating collaborator effects. -/
def run (s : ServerState) : List Action → ServerState × List Effect
  | [] => (s, [])
  | a :: rest =>
      match step s a with
      | (s1, effs) =>
          match run s1 rest with
          | (s2, effs') => (s2, effs ++ effs')

/-- Number of transport-handle allocations (`new Client(...)`) in an
effect list. -/
def countAlloc (effs : List Effect) : Nat :=
  (effs.filter fun e => match e with
    | Effect.newClient _ _ => true
    | _ => false).length

/-- Whether a `/status` body carries both a pairing artifact and
connection info. -/
def bothSet : StatusResponse → Bool
  | .ok _ (some _) (some _) => true
  | _ => false

/-- The transport events whose handlers reset `qrData` to null
(lines 60, 67, 73). -/
def clearsArtifact : TransportEvent → Bool
  | .ready _ => true
  | .disconnected _ => true
  | .authFailure _ => true
  | _ => false

theorem lookupClient_setClient_self (m : Registry) (k : String)
    (v : ClientEntry) : lookupClient (setClient m k v) k = some v := by
  induction m with
  | nil => simp [setClient, lookupClient]
  | cons kv rest ih =>
      obtain ⟨k', v'⟩ := kv
      by_cases h : k = k'
      · simp [setClient, lookupClient, h]
      · simp [setClient, lookupClient, h, ih]

theorem lookupClient_setClient_ne (m : Registry) (k u : String)
    (v : ClientEntry) (h : u ≠ k) :
    lookupClient (setClient m k v) u = lookupClient m u := by
  induction m with
  | nil => simp [setClient, lookupClient, h]
  | cons kv rest ih =>
      obtain ⟨k', v'⟩ := kv
      by_cases h' : k = k'
      · subst h'
        simp [setClient, lookupClient, h]
      · by_cases h'' : u = k'
        · simp [setClient, lookupClient, h', h'']
        · simp [setClient, lookupClient, h', h'', ih]

/-- C1: while the session is CONNECTED or QR_READY the `/start` guard is a
genuine no-op returning the current status, and even in STARTING no second
transport handle is allocated; but in STARTING the call is not a no-op: it
re-invokes `initialize` on the existing client and its 202 response omits
the current state. -/
theorem C1_start_guard (s : ServerState) (uid : String) (entry : ClientEntry)
    (huid : uid ≠ "")
    (hlook : lookupClient s.clients uid = some entry)
    (hst : entry.status = Status.CONNECTED ∨ entry.status = Status.QR_READY ∨
           entry.status = Status.STARTING) :
    countAlloc (startHandler s uid).2.2 = 0 ∧
    ((entry.status = Status.CONNECTED ∨ entry.status = Status.QR_READY) →
      startHandler s uid =
        (s, ⟨200, "Session is already active or initializing.",
             some entry.status, none⟩, [])) ∧
    (entry.status = Status.STARTING →
      (startHandler s uid).2.1.code = 202 ∧
      (startHandler s uid).2.1.status = none ∧
      (startHandler s uid).2.2 = [Effect.initCall entry.clientId]) := by
  rcases hst with h | h | h <;>
    simp [startHandler, getClientState, createClientInstance, countAlloc,
          huid, hlook, h]

/-- C1 counterexample: with the session STARTING (reached by one fresh
`/start`), a second `/start` falls through the guard: it is not a no-op
(it calls `initialize` again) and its body carries no state. -/
theorem C1_start_guard_counterexample :
    (getClientState (startHandler initState ("u1")).1 ("u1")).status =
      Status.STARTING ∧
    (startHandler (startHandler initState ("u1")).1 ("u1")).2.1.code = 202 ∧
    (startHandler (startHandler initState ("u1")).1 ("u1")).2.1.status =
      none ∧
    (startHandler (startHandler initState ("u1")).1 ("u1")).2.2 =
      [Effect.initCall 0] := by decide

/-- C1 witness: the guard theorem applied to a concrete CONNECTED
session. -/
theorem C1_start_guard_witness :
    countAlloc (startHandler
      ⟨[(("u1" : String), ⟨5, Status.CONNECTED, none, some ⟨"Alice", "123"⟩⟩)], 6⟩
      ("u1")).2.2 = 0 ∧
    ((Status.CONNECTED = Status.CONNECTED ∨
      Status.CONNECTED = Status.QR_READY) →
      startHandler
        ⟨[(("u1" : String), ⟨5, Status.CONNECTED, none, some ⟨"Alice", "123"⟩⟩)], 6⟩
        ("u1") =
      (⟨[(("u1" : String), ⟨5, Status.CONNECTED, none, some ⟨"Alice", "123"⟩⟩)], 6⟩,
       ⟨200, "Session is already active or initializing.",
        some Status.CONNECTED, none⟩, [])) ∧
    (Status.CONNECTED = Status.STARTING →
      (startHandler
        ⟨[(("u1" : String), ⟨5, Status.CONNECTED, none, some ⟨"Alice", "123"⟩⟩)], 6⟩
        ("u1")).2.1.code = 202 ∧
      (startHandler
        ⟨[(("u1" : String), ⟨5, Status.CONNECTED, none, some ⟨"Alice", "123"⟩⟩)], 6⟩
        ("u1")).2.1.status = none ∧
      (startHandler
        ⟨[(("u1" : String), ⟨5, Status.CONNECTED, none, some ⟨"Alice", "123"⟩⟩)], 6⟩
        ("u1")).2.2 = [Effect.initCall 5]) :=
  C1_start_guard _ ("u1") ⟨5, Status.CONNECTED, none, some ⟨"Alice", "123"⟩⟩
    (by decide) (by decide) (Or.inl rfl)

/-- C2 (amended): the ready, disconnected and auth-failure handlers each
reset `qrData` to null, so immediately after any of these transitions the
entry holds no pairing artifact and a `/status` read cannot return both
the artifact and connection info.  (The original claim fails because the
QR-encoding callback completes asynchronously and writes `qrData`
unconditionally — see the counterexample.) -/
theorem C2_artifact_cleared (s : ServerState) (uid : String)
    (entry : ClientEntry) (e : TransportEvent)
    (huid : uid ≠ "")
    (hlook : lookupClient s.clients uid = some entry)
    (he : clearsArtifact e = true) :
    (∃ entry', lookupClient (applyEvent s uid e).1.clients uid =
        some entry' ∧ entry'.qrData = none) ∧
    bothSet (statusHandler (applyEvent s uid e).1 uid) = false := by
  cases e <;> simp_all [clearsArtifact, applyEvent, hlook, statusHandler,
    getClientState, bothSet, lookupClient_setClient_self, huid]

/-- C2 counterexample: start, QR event, connected event, and then the late
completion of the QR encoding: `/status` now returns a CONNECTED session
with both a pairing artifact and connection info. -/
theorem C2_artifact_cleared_counterexample :
    statusHandler
      (run initState
        [Action.httpStart ("u1"),
         Action.transport ("u1") (TransportEvent.qr ("RAWQR")),
         Action.transport ("u1") (TransportEvent.ready ⟨"Alice", "123"⟩),
         Action.transport ("u1")
           (TransportEvent.qrEncoded (some ("IMG")))]).1 ("u1") =
      StatusResponse.ok Status.CONNECTED (some ("IMG"))
        (some ⟨"Alice", "123"⟩) ∧
    bothSet
      (statusHandler
        (run initState
          [Action.httpStart ("u1"),
           Action.transport ("u1") (TransportEvent.qr ("RAWQR")),
           Action.transport ("u1") (TransportEvent.ready ⟨"Alice", "123"⟩),
           Action.transport ("u1")
             (TransportEvent.qrEncoded (some ("IMG")))]).1 ("u1")) =
      true := by decide

/-- C2 witness: the clearing theorem applied to a concrete QR_READY
session receiving the connected event. -/
theorem C2_artifact_cleared_witness :
    (∃ entry', lookupClient
        (applyEvent
          ⟨[(("u1" : String), ⟨0, Status.QR_READY, some ("IMG"), none⟩)], 1⟩
          ("u1") (TransportEvent.ready ⟨"Alice", "123"⟩)).1.clients
        ("u1") = some entry' ∧ entry'.qrData = none) ∧
    bothSet (statusHandler
      (applyEvent
        ⟨[(("u1" : String), ⟨0, Status.QR_READY, some ("IMG"), none⟩)], 1⟩
        ("u1") (TransportEvent.ready ⟨"Alice", "123"⟩)).1 ("u1")) = false :=
  C2_artifact_cleared _ ("u1") ⟨0, Status.QR_READY, some ("IMG"), none⟩
    (TransportEvent.ready ⟨"Alice", "123"⟩) (by decide) (by decide) rfl

/-- C3 (amended): on a transport disconnected event with any reason the
handler marks the session DISCONNECTED, clears `info` and `qrData`, and
makes no collaborator call whatsoever — no re-initialization is scheduled,
there is no retry bound and no TERMINATED state; a later STARTING
transition requires a caller's `/start`. -/
theorem C3_no_auto_retry (s : ServerState) (uid : String)
    (entry : ClientEntry) (reason : String)
    (hlook : lookupClient s.clients uid = some entry) :
    applyEvent s uid (TransportEvent.disconnected reason) =
      (⟨setClient s.clients uid
          { entry with status := Status.DISCONNECTED, info := none,
                       qrData := none },
        s.nextClientId⟩, []) := by
  simp [applyEvent, hlook]

/-- C3 counterexample: a CONNECTED session receives a transient close; the
step emits no effect (nothing is scheduled) and the session sits at
DISCONNECTED — no STARTING transition can follow without a caller
request. -/
theorem C3_no_auto_retry_counterexample :
    (step
      (run initState
        [Action.httpStart ("u1"),
         Action.transport ("u1") (TransportEvent.ready ⟨"Alice", "123"⟩)]).1
      (Action.transport ("u1")
        (TransportEvent.disconnected ("transient")))).2 = [] ∧
    (getClientState
      (step
        (run initState
          [Action.httpStart ("u1"),
           Action.transport ("u1")
             (TransportEvent.ready ⟨"Alice", "123"⟩)]).1
        (Action.transport ("u1")
          (TransportEvent.disconnected ("transient")))).1 ("u1")).status =
      Status.DISCONNECTED := by decide

/-- C3 witness: the disconnected-handler theorem at a concrete CONNECTED
session. -/
theorem C3_no_auto_retry_witness :
    applyEvent
      ⟨[(("u1" : String),
         ⟨0, Status.CONNECTED, none, some ⟨"Alice", "123"⟩⟩)], 1⟩
      ("u1") (TransportEvent.disconnected ("NAVIGATION")) =
      (⟨setClient
          [(("u1" : String),
            ⟨0, Status.CONNECTED, none, some ⟨"Alice", "123"⟩⟩)]
          ("u1") ⟨0, Status.DISCONNECTED, none, none⟩, 1⟩, []) :=
  C3_no_auto_retry _ ("u1")
    ⟨0, Status.CONNECTED, none, some ⟨"Alice", "123"⟩⟩ ("NAVIGATION")
    (by decide)

/-- C4 (amended): after a CONNECTED session receives a closed event with
the logout reason, the identity's entry remains in the registry — merely
marked DISCONNECTED with `qrData` and `info` cleared — and every
subsequent `/status` read reports DISCONNECTED. -/
theorem C4_logout_marks_disconnected (s : ServerState) (uid : String)
    (entry : ClientEntry) (reason : String)
    (huid : uid ≠ "")
    (hlook : lookupClient s.clients uid = some entry)
    (_hconn : entry.status = Status.CONNECTED) :
    lookupClient
        (applyEvent s uid (TransportEvent.disconnected reason)).1.clients
        uid =
      some { entry with status := Status.DISCONNECTED, qrData := none,
                        info := none } ∧
    statusHandler (applyEvent s uid (TransportEvent.disconnected reason)).1
        uid =
      StatusResponse.ok Status.DISCONNECTED none none := by
  simp [applyEvent, hlook, statusHandler, getClientState,
    lookupClient_setClient_self, huid]

/-- C4 counterexample: after start, connected, closed(LOGOUT), the entry
for the identity is still present in the registry (the code never deletes
registry entries), refuting removal. -/
theorem C4_logout_marks_disconnected_counterexample :
    lookupClient
      (run initState
        [Action.httpStart ("u1"),
         Action.transport ("u1") (TransportEvent.ready ⟨"Alice", "123"⟩),
         Action.transport ("u1")
           (TransportEvent.disconnected ("LOGOUT"))]).1.clients ("u1") =
      some ⟨0, Status.DISCONNECTED, none, none⟩ := by decide

/-- C4 witness: the theorem at a concrete CONNECTED session receiving the
logout close. -/
theorem C4_logout_marks_disconnected_witness :
    lookupClient
        (applyEvent
          ⟨[(("u1" : String),
             ⟨0, Status.CONNECTED, none, some ⟨"Alice", "123"⟩⟩)], 1⟩
          ("u1") (TransportEvent.disconnected ("LOGOUT"))).1.clients
        ("u1") =
      some ⟨0, Status.DISCONNECTED, none, none⟩ ∧
    statusHandler
        (applyEvent
          ⟨[(("u1" : String),
             ⟨0, Status.CONNECTED, none, some ⟨"Alice", "123"⟩⟩)], 1⟩
          ("u1") (TransportEvent.disconnected ("LOGOUT"))).1 ("u1") =
      StatusResponse.ok Status.DISCONNECTED none none :=
  C4_logout_marks_disconnected _ ("u1")
    ⟨0, Status.CONNECTED, none, some ⟨"Alice", "123"⟩⟩ ("LOGOUT")
    (by decide) (by decide) rfl

/-- C5: a `/send` request that passes input validation but finds the
session in any status other than CONNECTED (the absent-session fallback
included) is answered with the 400 precondition error whose message
interpolates the current status, and no transport call is made. -/
theorem C5_send_precondition (s : ServerState) (r : SendRequest)
    (hu : r.userId ≠ "") (hn : r.number ≠ "")
    (hv : 0 < r.media.length ∨ r.message.trim ≠ "")
    (hst : (getClientState s r.userId).status ≠ Status.CONNECTED) :
    sendHandler s r =
      (⟨400, false, sendErrMsg r.userId (getClientState s r.userId).status⟩,
       []) ∧
    ∃ a b, sendErrMsg r.userId (getClientState s r.userId).status =
      a ++ (getClientState s r.userId).status.name ++ b := by
  constructor
  · cases hl : lookupClient s.clients r.userId <;>
      rcases hv with hv | hv <;>
        simp_all [sendHandler, getClientState, hu, hn]
  · exact ⟨"WhatsApp client for user " ++ r.userId ++
      " connected nahi hai (Status: ", ").", rfl⟩

/-- C5 witness: the precondition theorem on a fresh server (session
absent, fallback status DISCONNECTED) for a one-attachment request. -/
theorem C5_send_precondition_witness :
    sendHandler initState
        ⟨"u1", "+92 300", "", [some ⟨some ("d"), some ("m")⟩]⟩ =
      (⟨400, false,
        sendErrMsg ("u1")
          (getClientState initState ("u1")).status⟩, []) ∧
    ∃ a b, sendErrMsg ("u1") (getClientState initState ("u1")).status =
      a ++ (getClientState initState ("u1")).status.name ++ b :=
  C5_send_precondition initState
    ⟨"u1", "+92 300", "", [some ⟨some ("d"), some ("m")⟩]⟩
    (by decide) (by decide) (Or.inl (by decide)) (by decide)

/-- C6 (amended): `/start` answers immediately — `initialize` is only an
asynchronous effect — with 200 and the current status when the session is
CONNECTED or QR_READY, and otherwise with 202 whose body carries no status
field; no `/start` response ever carries the pairing artifact, which must
be polled via `/status`. -/
theorem C6_start_snapshot (s : ServerState) (uid : String)
    (huid : uid ≠ "") :
    (((getClientState s uid).status = Status.CONNECTED ∨
      (getClientState s uid).status = Status.QR_READY) →
      startHandler s uid =
        (s, ⟨200, "Session is already active or initializing.",
             some (getClientState s uid).status, none⟩, [])) ∧
    (¬((getClientState s uid).status = Status.CONNECTED ∨
       (getClientState s uid).status = Status.QR_READY) →
      (startHandler s uid).2.1.code = 202 ∧
      (startHandler s uid).2.1.status = none) ∧
    (startHandler s uid).2.1.qr = none := by
  by_cases h : (getClientState s uid).status = Status.CONNECTED ∨
      (getClientState s uid).status = Status.QR_READY
  · simp [startHandler, huid, h]
  · have hred : (startHandler s uid).2.1 =
        ⟨202, "Initialization started. Poll /status for QR code.",
         none, none⟩ := by
      unfold startHandler
      rw [if_neg huid, if_neg h]
      rcases hcc : createClientInstance s uid with ⟨s1, cid, effs⟩
      cases hl : lookupClient s1.clients uid <;> simp [hl]
    exact ⟨fun h' => absurd h' h, fun _ => ⟨by rw [hred], by rw [hred]⟩,
      by rw [hred]⟩

/-- C6 counterexample: a fresh `/start` answers 202 with no state field in
the body, and a `/start` while QR_READY with a materialized artifact
answers without any pairing-artifact field. -/
theorem C6_start_snapshot_counterexample :
    (startHandler initState ("u1")).2.1.status = none ∧
    (getClientState
      (run initState
        [Action.httpStart ("u1"),
         Action.transport ("u1") (TransportEvent.qr ("RAWQR")),
         Action.transport ("u1")
           (TransportEvent.qrEncoded (some ("IMG")))]).1 ("u1")).qrData =
      some ("IMG") ∧
    (startHandler
      (run initState
        [Action.httpStart ("u1"),
         Action.transport ("u1") (TransportEvent.qr ("RAWQR")),
         Action.transport ("u1")
           (TransportEvent.qrEncoded (some ("IMG")))]).1 ("u1")).2.1.qr =
      none := by decide

/-- C6 witness: the snapshot theorem on a fresh server state. -/
theorem C6_start_snapshot_witness :
    (((getClientState initState ("u1")).status = Status.CONNECTED ∨
      (getClientState initState ("u1")).status = Status.QR_READY) →
      startHandler initState ("u1") =
        (initState,
         ⟨200, "Session is already active or initializing.",
          some (getClientState initState ("u1")).status, none⟩, [])) ∧
    (¬((getClientState initState ("u1")).status = Status.CONNECTED ∨
       (getClientState initState ("u1")).status = Status.QR_READY) →
      (startHandler initState ("u1")).2.1.code = 202 ∧
      (startHandler initState ("u1")).2.1.status = none) ∧
    (startHandler initState ("u1")).2.1.qr = none :=
  C6_start_snapshot initState ("u1") (by decide)

/-- C7 (amended): `/disconnect` with a resolving destroy always answers
200 — including when no session exists or it is already DISCONNECTED —
leaves the entry's status at DISCONNECTED, and a repeated call returns the
already-disconnected success on the unchanged state; the body carries a
message and no state field (the code has no TERMINATED state), and a
rejecting destroy instead yields 500 (see the counterexample). -/
theorem C7_disconnect_idempotent (s : ServerState) (uid : String)
    (huid : uid ≠ "") :
    (disconnectHandler s uid true).2.1.code = 200 ∧
    (disconnectHandler s uid true).2.1.state = none ∧
    (getClientState (disconnectHandler s uid true).1 uid).status =
      Status.DISCONNECTED ∧
    disconnectHandler (disconnectHandler s uid true).1 uid true =
      ((disconnectHandler s uid true).1,
       ⟨200, "Client already disconnected or not initialized.", none⟩,
       []) := by
  cases hl : lookupClient s.clients uid with
  | none => simp [disconnectHandler, getClientState, huid, hl]
  | some entry =>
      by_cases hd : entry.status = Status.DISCONNECTED
      · simp [disconnectHandler, getClientState, huid, hl, hd]
      · simp [disconnectHandler, getClientState, huid, hl, hd,
          lookupClient_setClient_self]

/-- C7 counterexample: a successful disconnect answers with a
message-only body whose state field is absent — not `{state: TERMINATED}`
— and a rejecting destroy makes the endpoint answer 500 rather than
succeed. -/
theorem C7_disconnect_idempotent_counterexample :
    (disconnectHandler
      ⟨[(("u1" : String),
         ⟨0, Status.CONNECTED, none, some ⟨"Alice", "123"⟩⟩)], 1⟩
      ("u1") true).2.1 =
      ⟨200, "Successfully destroyed session and disconnected.", none⟩ ∧
    (disconnectHandler
      ⟨[(("u1" : String),
         ⟨0, Status.CONNECTED, none, some ⟨"Alice", "123"⟩⟩)], 1⟩
      ("u1") false).2.1.code = 500 := by decide

/-- C7 witness: the idempotence theorem at a concrete CONNECTED
session. -/
theorem C7_disconnect_idempotent_witness :
    (disconnectHandler
      ⟨[(("u2" : String),
         ⟨3, Status.CONNECTED, none, some ⟨"Bob", "456"⟩⟩)], 4⟩
      ("u2") true).2.1.code = 200 ∧
    (disconnectHandler
      ⟨[(("u2" : String),
         ⟨3, Status.CONNECTED, none, some ⟨"Bob", "456"⟩⟩)], 4⟩
      ("u2") true).2.1.state = none ∧
    (getClientState
      (disconnectHandler
        ⟨[(("u2" : String),
           ⟨3, Status.CONNECTED, none, some ⟨"Bob", "456"⟩⟩)], 4⟩
        ("u2") true).1 ("u2")).status = Status.DISCONNECTED ∧
    disconnectHandler
        (disconnectHandler
          ⟨[(("u2" : String),
             ⟨3, Status.CONNECTED, none, some ⟨"Bob", "456"⟩⟩)], 4⟩
          ("u2") true).1 ("u2") true =
      ((disconnectHandler
          ⟨[(("u2" : String),
             ⟨3, Status.CONNECTED, none, some ⟨"Bob", "456"⟩⟩)], 4⟩
          ("u2") true).1,
       ⟨200, "Client already disconnected or not initialized.", none⟩,
       []) :=
  C7_disconnect_idempotent
    ⟨[(("u2" : String), ⟨3, Status.CONNECTED, none, some ⟨"Bob", "456"⟩⟩)], 4⟩
    ("u2") (by decide)

/-- C8 (amended): an auth-failure event in any state moves the session to
AUTH_FAILED, clears the pairing artifact, and instructs deletion of the
identity's credential store — with no retry or other collaborator call —
but the session entry is not removed from the registry. -/
theorem C8_auth_failure_cleanup (s : ServerState) (uid : String)
    (entry : ClientEntry) (msg : String)
    (hlook : lookupClient s.clients uid = some entry) :
    applyEvent s uid (TransportEvent.authFailure msg) =
      (⟨setClient s.clients uid
          { entry with status := Status.AUTH_FAILED, qrData := none },
        s.nextClientId⟩,
       [Effect.deleteSessionFolder (sessionPath uid)]) ∧
    lookupClient
        (applyEvent s uid (TransportEvent.authFailure msg)).1.clients uid =
      some { entry with status := Status.AUTH_FAILED, qrData := none } := by
  simp [applyEvent, hlook, lookupClient_setClient_self]

/-- C8 counterexample: after start then auth failure, the identity's entry
is still present in the registry (marked AUTH_FAILED), refuting the
claimed removal of the session. -/
theorem C8_auth_failure_cleanup_counterexample :
    lookupClient
      (run initState
        [Action.httpStart ("u1"),
         Action.transport ("u1")
           (TransportEvent.authFailure ("bad creds"))]).1.clients ("u1") =
      some ⟨0, Status.AUTH_FAILED, none, none⟩ := by decide

/-- C8 witness: the auth-failure theorem at a concrete QR_READY
session. -/
theorem C8_auth_failure_cleanup_witness :
    applyEvent
        ⟨[(("u1" : String), ⟨0, Status.QR_READY, some ("IMG"), none⟩)], 1⟩
        ("u1") (TransportEvent.authFailure ("bad creds")) =
      (⟨setClient
          [(("u1" : String), ⟨0, Status.QR_READY, some ("IMG"), none⟩)]
          ("u1") ⟨0, Status.AUTH_FAILED, none, none⟩, 1⟩,
       [Effect.deleteSessionFolder (sessionPath ("u1"))]) ∧
    lookupClient
        (applyEvent
          ⟨[(("u1" : String), ⟨0, Status.QR_READY, some ("IMG"), none⟩)], 1⟩
          ("u1") (TransportEvent.authFailure ("bad creds"))).1.clients
        ("u1") =
      some ⟨0, Status.AUTH_FAILED, none, none⟩ :=
  C8_auth_failure_cleanup _ ("u1") ⟨0, Status.QR_READY, some ("IMG"), none⟩
    ("bad creds") (by decide)

theorem countAlloc_startHandler_of_present (s : ServerState) (uid : String)
    (entry : ClientEntry) (huid : uid ≠ "")
    (hlook : lookupClient s.clients uid = some entry)
    (h : entry.status ≠ Status.DISCONNECTED) :
    countAlloc (startHandler s uid).2.2 = 0 := by
  by_cases hg : entry.status = Status.CONNECTED ∨
      entry.status = Status.QR_READY
  · simp [startHandler, getClientState, huid, hlook, hg, countAlloc]
  · have hg' : ¬((getClientState s uid).status = Status.CONNECTED ∨
        (getClientState s uid).status = Status.QR_READY) := by
      simpa [getClientState, hlook] using hg
    unfold startHandler
    rw [if_neg huid, if_neg hg']
    have hcc : createClientInstance s uid = (s, entry.clientId, []) := by
      simp [createClientInstance, hlook, h]
    rw [hcc]
    cases hl : lookupClient s.clients uid <;> simp [hl, countAlloc]

theorem startHandler_post_present (s : ServerState) (uid : String)
    (huid : uid ≠ "") :
    ∃ entry, lookupClient (startHandler s uid).1.clients uid = some entry ∧
      entry.status ≠ Status.DISCONNECTED := by
  by_cases hg : (getClientState s uid).status = Status.CONNECTED ∨
      (getClientState s uid).status = Status.QR_READY
  · have h1 : (startHandler s uid).1 = s := by
      simp [startHandler, huid, hg]
    rw [h1]
    cases hl : lookupClient s.clients uid with
    | none => simp [getClientState, hl] at hg
    | some entry =>
        refine ⟨entry, rfl, ?_⟩
        have : (getClientState s uid).status = entry.status := by
          simp [getClientState, hl]
        rw [this] at hg
        rcases hg with hg | hg <;> simp [hg]
  · unfold startHandler
    rw [if_neg huid, if_neg hg]
    rcases hcc : createClientInstance s uid with ⟨s1, cid, effs⟩
    cases hl : lookupClient s1.clients uid with
    | none =>
        exfalso
        unfold createClientInstance at hcc
        cases hl0 : lookupClient s.clients uid with
        | none =>
            rw [hl0] at hcc
            simp at hcc
            rw [← hcc.1] at hl
            simp [lookupClient_setClient_self] at hl
        | some e0 =>
            rw [hl0] at hcc
            by_cases hd : e0.status = Status.DISCONNECTED
            · simp [hd] at hcc
              rw [← hcc.1] at hl
              simp [lookupClient_setClient_self] at hl
            · simp [hd] at hcc
              rw [← hcc.1] at hl
              rw [hl0] at hl
              cases hl
    | some entry =>
        exact ⟨{ entry with status := Status.STARTING }, by
          simp [hl, lookupClient_setClient_self], by simp⟩

theorem countAlloc_startHandler_le_one (s : ServerState) (uid : String) :
    countAlloc (startHandler s uid).2.2 ≤ 1 := by
  by_cases huid : uid = ""
  · simp [startHandler, huid, countAlloc]
  · by_cases hg : (getClientState s uid).status = Status.CONNECTED ∨
        (getClientState s uid).status = Status.QR_READY
    · simp [startHandler, huid, hg, countAlloc]
    · unfold startHandler
      rw [if_neg huid, if_neg hg]
      unfold createClientInstance
      cases hl0 : lookupClient s.clients uid with
      | none =>
          cases hl : lookupClient
              (setClient s.clients uid
                ⟨s.nextClientId, Status.DISCONNECTED, none, none⟩) uid <;>
            simp [hl, countAlloc]
      | some e0 =>
          by_cases hd : e0.status = Status.DISCONNECTED
          · simp only [hd, ne_eq, not_true_eq_false, if_false, ite_false]
            cases hl : lookupClient
                (setClient s.clients uid
                  ⟨s.nextClientId, Status.DISCONNECTED, none, none⟩) uid <;>
              simp [hl, countAlloc]
          · simp only [ne_eq, hd, not_false_eq_true, if_true, ite_true]
            cases hl : lookupClient s.clients uid <;>
              simp [hl, countAlloc]

theorem countAlloc_startHandler_of_absent (s : ServerState) (uid : String)
    (huid : uid ≠ "") (hlook : lookupClient s.clients uid = none) :
    countAlloc (startHandler s uid).2.2 = 1 := by
  have hg : ¬((getClientState s uid).status = Status.CONNECTED ∨
      (getClientState s uid).status = Status.QR_READY) := by
    simp [getClientState, hlook]
  unfold startHandler
  rw [if_neg huid, if_neg hg]
  unfold createClientInstance
  rw [hlook]
  cases hl : lookupClient
      (setClient s.clients uid
        ⟨s.nextClientId, Status.DISCONNECTED, none, none⟩) uid <;>
    simp [hl, countAlloc]

theorem startHandler_other_key (s : ServerState) (uid uid2 : String)
    (hne : uid ≠ uid2) :
    lookupClient (startHandler s uid2).1.clients uid =
      lookupClient s.clients uid := by
  by_cases huid2 : uid2 = ""
  · simp [startHandler, huid2]
  · by_cases hg : (getClientState s uid2).status = Status.CONNECTED ∨
        (getClientState s uid2).status = Status.QR_READY
    · simp [startHandler, huid2, hg]
    · unfold startHandler
      rw [if_neg huid2, if_neg hg]
      unfold createClientInstance
      cases hl0 : lookupClient s.clients uid2 with
      | none =>
          cases hl : lookupClient
              (setClient s.clients uid2
                ⟨s.nextClientId, Status.DISCONNECTED, none, none⟩) uid2 <;>
            simp [hl, lookupClient_setClient_ne _ _ _ _ hne]
      | some e0 =>
          by_cases hd : e0.status = Status.DISCONNECTED
          · simp only [hd, ne_eq, not_true_eq_false, if_false, ite_false]
            cases hl : lookupClient
                (setClient s.clients uid2
                  ⟨s.nextClientId, Status.DISCONNECTED, none, none⟩) uid2 <;>
              simp [hl, lookupClient_setClient_ne _ _ _ _ hne]
          · simp only [ne_eq, hd, not_false_eq_true, if_true, ite_true]
            cases hl : lookupClient s.clients uid2 <;>
              simp [hl, lookupClient_setClient_ne _ _ _ _ hne]

/-- C9: one `/start` allocates at most one transport handle (exactly one
when the identity was absent), an immediately following second `/start`
for the same identity allocates none — the event loop runs each handler
body atomically, so two near-simultaneous requests execute in one of the
two serial orders, both covered — and a `/start` for a different identity
leaves this identity's entry untouched. -/
theorem C9_single_allocation (s : ServerState) (uid uid2 : String)
    (huid : uid ≠ "") (hne : uid ≠ uid2) :
    countAlloc (startHandler (startHandler s uid).1 uid).2.2 = 0 ∧
    countAlloc (startHandler s uid).2.2 ≤ 1 ∧
    (lookupClient s.clients uid = none →
      countAlloc (startHandler s uid).2.2 = 1) ∧
    lookupClient (startHandler s uid2).1.clients uid =
      lookupClient s.clients uid := by
  refine ⟨?_, countAlloc_startHandler_le_one s uid,
    fun h => countAlloc_startHandler_of_absent s uid huid h,
    startHandler_other_key s uid uid2 hne⟩
  obtain ⟨entry, hlook, hst⟩ := startHandler_post_present s uid huid
  exact countAlloc_startHandler_of_present _ uid entry huid hlook hst

/-- C9 witness: the allocation theorem on a fresh server with identities
u1 and u2. -/
theorem C9_single_allocation_witness :
    countAlloc
        (startHandler (startHandler initState ("u1")).1 ("u1")).2.2 = 0 ∧
    countAlloc (startHandler initState ("u1")).2.2 ≤ 1 ∧
    (lookupClient initState.clients ("u1") = none →
      countAlloc (startHandler initState ("u1")).2.2 = 1) ∧
    lookupClient (startHandler initState ("u2")).1.clients ("u1") =
      lookupClient initState.clients ("u1") :=
  C9_single_allocation initState ("u1") ("u2") (by decide) (by decide)

/-- C10: every transport send performed by `/send` — text or media —
targets the chat id obtained by stripping every non-digit character from
the caller's number and appending the c.us suffix; hence numbers that
agree on their digit characters reach the same chat, and an all-non-digit
number yields the bare suffix rather than a validation error. -/
theorem C10_chat_id_derivation :
    (∀ (s : ServerState) (r : SendRequest) (cid : Nat) (chat : String),
      Effect.transportSend cid chat ∈ (sendHandler s r).2 →
        chat = toChatId r.number) ∧
    (∀ n1 n2 : String,
      n1.data.filter Char.isDigit = n2.data.filter Char.isDigit →
        toChatId n1 = toChatId n2) ∧
    (∀ n : String, (∀ c ∈ n.data, c.isDigit = false) →
      toChatId n = "@c.us") := by
  refine ⟨?_, ?_, ?_⟩
  · intro s r cid chat hmem
    unfold sendHandler at hmem
    split at hmem
    · simp at hmem
    · split at hmem
      · simp only [] at hmem
        split at hmem <;> simp at hmem
      · simp only [] at hmem
        split at hmem
        · simp at hmem
        · split at hmem
          · simp at hmem
          · split at hmem
            · split at hmem
              · simp at hmem
              · simp only [List.mem_map] at hmem
                obtain ⟨f, _, hf⟩ := hmem
                simp only [Effect.transportSend.injEq] at hf
                exact hf.2.symm
            · simp only [List.mem_singleton,
                Effect.transportSend.injEq] at hmem
              exact hmem.2
  · intro n1 n2 h
    unfold toChatId
    rw [h]
  · intro n h
    have hnil : n.data.filter Char.isDigit = [] :=
      List.filter_eq_nil_iff.mpr (by intro a ha; simp [h a ha])
    unfold toChatId
    rw [hnil]
    rfl

/-- C10 witness: the derivation theorem applied to a concrete connected
send and to concrete number strings. -/
theorem C10_chat_id_derivation_witness :
    ("92300@c.us" : String) = toChatId ("+92-300") ∧
    toChatId ("+92 (300)") = toChatId ("92300") ∧
    toChatId ("abc- +") = "@c.us" :=
  ⟨C10_chat_id_derivation.1
      ⟨[(("u1" : String),
         ⟨0, Status.CONNECTED, none, some ⟨"Alice", "123"⟩⟩)], 1⟩
      ⟨"u1", "+92-300", "cap", [some ⟨some ("d"), some ("m")⟩]⟩
      0 ("92300@c.us") (by decide),
   C10_chat_id_derivation.2.1 ("+92 (300)") ("92300") (by decide),
   C10_chat_id_derivation.2.2 ("abc- +") (by decide)⟩

end QRService
